import Mathlib

/-!
Verification of the KG Hospital chatbot (files `Backend/main.py` and `maIn.py`).

The Python code is shallowly embedded: strings are `String` / `List Char`,
Python `None`-able values are `Option`, raised exceptions are `Except` errors
or `Option.none` results, and the module-level / session mutable state is
passed explicitly.  External collaborators (the PDF parsing libraries, the
Firebase blob store, the HuggingFace embedding model, the Groq language model
and the LangChain retrieval chain) are modelled as explicit parameters or as
oracle fields describing what each call would return; everything the
repository itself computes is translated directly from the source.
All definitions are total computable functions, so "never raises" claims
correspond to the embedding being definable without an error case.
-/

/-! ### Python string primitives -/

/-- ASCII lowercasing of one character, as Python `str.lower` acts on ASCII. -/
def toLowerChar (c : Char) : Char :=
  if 'A' ≤ c ∧ c ≤ 'Z' then Char.ofNat (c.toNat + 32) else c

/-- ASCII uppercasing of one character, as Python `str.upper` acts on ASCII. -/
def toUpperChar (c : Char) : Char :=
  if 'a' ≤ c ∧ c ≤ 'z' then Char.ofNat (c.toNat - 32) else c

/-- `message.lower()` on the character list. -/
def lowerChars (s : List Char) : List Char := s.map toLowerChar

/-- The whitespace characters recognised by Python `str.strip` and the regex
class `\s` (for the ASCII range used by this code base). -/
def isPySpace (c : Char) : Bool :=
  c = ' ' || c = '\t' || c = '\n' || c = '\r' || c = '\x0b' || c = '\x0c'

/-- Python `s.strip()`. -/
def pyStrip (s : List Char) : List Char :=
  ((s.dropWhile isPySpace).reverse.dropWhile isPySpace).reverse

/-- Python substring test `needle in hay`. -/
def containsSub (needle : List Char) : List Char → Bool
  | [] => needle.isEmpty
  | c :: t => needle.isPrefixOf (c :: t) || containsSub needle t

/-- Python `hay.split(needle, 1)[1]`: the text after the first occurrence of
`needle`, or `none` when `needle` does not occur. -/
def splitAfterFirst (needle : List Char) : List Char → Option (List Char)
  | [] => if needle.isEmpty then some [] else none
  | c :: t =>
    if needle.isPrefixOf (c :: t) then some ((c :: t).drop needle.length)
    else splitAfterFirst needle t

/-- Decimal value of a digit string, as Python `int` on a `^\d+$` line. -/
def digitsToNat (s : List Char) : Nat :=
  s.foldl (fun a c => a * 10 + (c.toNat - 48)) 0

/-- First `some` produced by `f` along the list (a Python loop with `break`). -/
def firstSome {α β : Type} (f : α → Option β) : List α → Option β
  | [] => none
  | a :: t => match f a with | some b => some b | none => firstSome f t

theorem containsSub_iff (needle hay : List Char) :
    containsSub needle hay = true ↔ needle <:+: hay := by
  induction hay with
  | nil => simp [containsSub, List.infix_nil, List.isEmpty_iff]
  | cons c t ih =>
    simp only [containsSub, Bool.or_eq_true, List.isPrefixOf_iff_prefix, ih,
      List.infix_cons_iff]

theorem firstSome_eq_findSome? {α β : Type} (f : α → Option β) (l : List α) :
    firstSome f l = l.findSome? f := by
  induction l with
  | nil => rfl
  | cons a t ih =>
    simp only [firstSome, List.findSome?_cons]
    cases f a <;> simp [ih]

/-! ### Appointment intent classifier (`Backend/main.py`, `detect_appointment_intent`) -/

namespace Backend

/-- The fixed keyword set of `detect_appointment_intent`. -/
def appointment_keywords : List String :=
  ["appointment", "book", "schedule", "meet", "doctor visit",
   "consultation", "checkup", "visit doctor", "see doctor",
   "reserve", "slot", "available time"]

/-- `detect_appointment_intent(message)`: true iff the lowercased message
contains any keyword as a substring. -/
def detect_appointment_intent (message : String) : Bool :=
  appointment_keywords.any (fun keyword => containsSub keyword.data (lowerChars message.data))

end Backend

/-! ### Regex machinery for `extract_appointment_details`

Each Python pattern used by the extractor is realised as a matcher
`Option Char → List Char → Option Nat` giving, at a scan position (with the
previous character available for `\b` tests), the length of the match there,
reproducing the greedy/backtracking behaviour of `re.search` for that
particular pattern.  `reSearch` then scans left to right and returns the
leftmost match text, exactly as `re.search(...).group(0)`. -/

/-- A regex word character (`\w` over the ASCII range): used for `\b` tests. -/
def wordChar (c : Char) : Bool := c.isAlphanum || c = '_'

/-- `\b` before a word character: the previous character, if any, is not a
word character. -/
def boundaryBeforeWord : Option Char → Bool
  | none => true
  | some c => !wordChar c

/-- `\b` after a word character: the rest is empty or starts with a non-word
character. -/
def endBoundary : List Char → Bool
  | [] => true
  | c :: _ => !wordChar c

/-- Consume exactly `n` digits, returning the remainder. -/
def takeDigitsExact : Nat → List Char → Option (List Char)
  | 0, s => some s
  | _ + 1, [] => none
  | n + 1, c :: s => if c.isDigit then takeDigitsExact n s else none

/-- Consume one date separator, a slash or a dash. -/
def takeDateSep : List Char → Option (List Char)
  | [] => none
  | c :: s => if c = '/' || c = '-' then some s else none

/-- Consume one `:`. -/
def takeColon : List Char → Option (List Char)
  | [] => none
  | c :: s => if c = ':' then some s else none

/-- Consume a fixed lowercase word case-insensitively. -/
def takeCI : List Char → List Char → Option (List Char)
  | [], s => some s
  | _ :: _, [] => none
  | a :: w, c :: s => if toLowerChar c = a then takeCI w s else none

/-- Matched length at this position, from the remainder left by the parse. -/
def matchedLen (s rest : List Char) : Nat := s.length - rest.length

/-- `\b\d{1,2}` sep `\d{1,2}` sep `\d{2,4}\b` with sep a slash or dash
(e.g. `12/25/2024`), with the greedy
backtracking order of the bounded quantifiers. -/
def datePat1 (prev : Option Char) (s : List Char) : Option Nat :=
  if boundaryBeforeWord prev then
    (firstSome (fun n1 => (takeDigitsExact n1 s).bind fun s1 =>
      (takeDateSep s1).bind fun s2 =>
      firstSome (fun n2 => (takeDigitsExact n2 s2).bind fun s3 =>
        (takeDateSep s3).bind fun s4 =>
        firstSome (fun n3 => (takeDigitsExact n3 s4).bind fun s5 =>
          if endBoundary s5 then some s5 else none) [4, 3, 2]) [2, 1]) [2, 1]).map
      (matchedLen s)
  else none

/-- `\b\d{4}` sep `\d{1,2}` sep `\d{1,2}\b` with sep a slash or dash
(e.g. `2024-12-25`). -/
def datePat2 (prev : Option Char) (s : List Char) : Option Nat :=
  if boundaryBeforeWord prev then
    ((takeDigitsExact 4 s).bind fun s1 =>
      (takeDateSep s1).bind fun s2 =>
      firstSome (fun n2 => (takeDigitsExact n2 s2).bind fun s3 =>
        (takeDateSep s3).bind fun s4 =>
        firstSome (fun n3 => (takeDigitsExact n3 s4).bind fun s5 =>
          if endBoundary s5 then some s5 else none) [2, 1]) [2, 1]).map
      (matchedLen s)
  else none

/-- `\b(today|tomorrow|next week|next month)\b` with `re.IGNORECASE`,
alternatives tried in written order. -/
def datePat3 (prev : Option Char) (s : List Char) : Option Nat :=
  if boundaryBeforeWord prev then
    (firstSome (fun w => (takeCI w s).bind fun rest =>
        if endBoundary rest then some rest else none)
      ["today".data, "tomorrow".data, "next week".data, "next month".data]).map
      (matchedLen s)
  else none

/-- `(?:am|pm|AM|PM)` under `re.IGNORECASE`: either meridiem word, any case. -/
def takeAmPm (s : List Char) : Option (List Char) :=
  firstSome (fun w => takeCI w s) ["am".data, "pm".data]

/-- `\b\d{1,2}:\d{2}\s*(?:am|pm|AM|PM)\b` (e.g. `10:30 AM`). -/
def timePat1 (prev : Option Char) (s : List Char) : Option Nat :=
  if boundaryBeforeWord prev then
    (firstSome (fun n1 => (takeDigitsExact n1 s).bind fun s1 =>
      (takeColon s1).bind fun s2 =>
      (takeDigitsExact 2 s2).bind fun s3 =>
      (takeAmPm (s3.dropWhile isPySpace)).bind fun s5 =>
      if endBoundary s5 then some s5 else none) [2, 1]).map
      (matchedLen s)
  else none

/-- `\b\d{1,2}\s*(?:am|pm|AM|PM)\b` (e.g. `10 AM`). -/
def timePat2 (prev : Option Char) (s : List Char) : Option Nat :=
  if boundaryBeforeWord prev then
    (firstSome (fun n1 => (takeDigitsExact n1 s).bind fun s1 =>
      (takeAmPm (s1.dropWhile isPySpace)).bind fun s5 =>
      if endBoundary s5 then some s5 else none) [2, 1]).map
      (matchedLen s)
  else none

/-- `\b(morning|afternoon|evening)\b` with `re.IGNORECASE`. -/
def timePat3 (prev : Option Char) (s : List Char) : Option Nat :=
  if boundaryBeforeWord prev then
    (firstSome (fun w => (takeCI w s).bind fun rest =>
        if endBoundary rest then some rest else none)
      ["morning".data, "afternoon".data, "evening".data]).map
      (matchedLen s)
  else none

/-- Scan left to right carrying the previous character; at the first position
where the matcher succeeds return the matched text, as `re.search(...).group(0)`. -/
def reSearchFrom (pat : Option Char → List Char → Option Nat) :
    Option Char → List Char → Option (List Char)
  | prev, [] => match pat prev [] with | some _ => some [] | none => none
  | prev, c :: t =>
    match pat prev (c :: t) with
    | some n => some ((c :: t).take n)
    | none => reSearchFrom pat (some c) t

/-- `re.search(pattern, s)` returning the text of the leftmost match. -/
def reSearch (pat : Option Char → List Char → Option Nat) (s : List Char) :
    Option (List Char) :=
  reSearchFrom pat none s

namespace Backend

/-- `AppointmentDraft`: the dictionary returned by
`extract_appointment_details`, each field `None`-able. -/
structure AppointmentDetails where
  date : Option String
  time : Option String
  reason : Option String
deriving Repr, DecidableEq

/-- The ordered date pattern list of `extract_appointment_details`. -/
def date_patterns : List (Option Char → List Char → Option Nat) :=
  [datePat1, datePat2, datePat3]

/-- The ordered time pattern list of `extract_appointment_details`. -/
def time_patterns : List (Option Char → List Char → Option Nat) :=
  [timePat1, timePat2, timePat3]

/-- The ordered reason indicator list of `extract_appointment_details`. -/
def reason_indicators : List String := ["for", "regarding", "about", "because"]

/-- `extract_appointment_details(message)` from `Backend/main.py`: for date and
time, the first pattern of the ordered list with a match wins; the reason is
the (lowercased) text after the first indicator of `reason_indicators` — in
list order — that occurs as a substring of `message.lower()`, stripped and cut
to 200 characters. -/
def extract_appointment_details (message : String) : AppointmentDetails :=
  let s := message.data
  let date := firstSome (fun p => reSearch p s) date_patterns
  let time := firstSome (fun p => reSearch p s) time_patterns
  let low := lowerChars s
  let reason := firstSome
    (fun ind => (splitAfterFirst ind.data low).map fun after => (pyStrip after).take 200)
    reason_indicators
  { date := date.map String.mk, time := time.map String.mk,
    reason := reason.map String.mk }

/-- The suffix of `low` after the marker occurrence that starts earliest in the
text (markers compared at each position in list order; no two markers can match
at the same position since none is a prefix of another). -/
def earliestMarkerAfter (inds : List (List Char)) : List Char → Option (List Char)
  | [] => none
  | c :: t =>
    match firstSome (fun ind =>
        if ind.isPrefixOf (c :: t) then some ((c :: t).drop ind.length) else none) inds with
    | some after => some after
    | none => earliestMarkerAfter inds t

/-- The extractor as the specification words it: date and time by the first
matching pattern of the ordered per-field lists, and the reason as the text
following the FIRST OCCURRING marker word (the occurrence earliest in the
message) among for, regarding, about, because, truncated to 200 characters. -/
def extract_details_spec (message : String) : AppointmentDetails :=
  let s := message.data
  let date := date_patterns.findSome? (fun p => reSearch p s)
  let time := time_patterns.findSome? (fun p => reSearch p s)
  let low := lowerChars s
  let reason := (earliestMarkerAfter (reason_indicators.map String.data) low).map
    fun after => (pyStrip after).take 200
  { date := date.map String.mk, time := time.map String.mk,
    reason := reason.map String.mk }

/-- The extractor as amended: as `extract_details_spec`, except that the reason
marker is the first indicator in the fixed order for, regarding, about, because
that occurs anywhere (as a substring, also inside words) in the lowercased
message, split at that indicator's first occurrence. -/
def extract_details_spec_amended (message : String) : AppointmentDetails :=
  let s := message.data
  let date := date_patterns.findSome? (fun p => reSearch p s)
  let time := time_patterns.findSome? (fun p => reSearch p s)
  let low := lowerChars s
  let reason := (reason_indicators.map String.data).findSome?
    fun ind => (splitAfterFirst ind low).map fun after => (pyStrip after).take 200
  { date := date.map String.mk, time := time.map String.mk,
    reason := reason.map String.mk }

end Backend

/-- Claim C5, counterexample: the code picks the reason marker by its position
in the fixed indicator list, not by its first occurrence in the message.  In
"ask about parking for visitors" the marker occurring first is "about"
(position 4), yet the code splits at "for" (position 17) because "for" comes
first in the list: the extractor returns reason "visitors" where the claimed
behaviour returns "parking for visitors". -/
theorem extract_details_first_marker_cex :
    Backend.extract_appointment_details "ask about parking for visitors" ≠
      Backend.extract_details_spec "ask about parking for visitors" ∧
    Backend.extract_appointment_details "ask about parking for visitors" =
      { date := none, time := none, reason := some "visitors" } ∧
    Backend.extract_details_spec "ask about parking for visitors" =
      { date := none, time := none, reason := some "parking for visitors" } := by
  refine ⟨by decide, by decide, by decide⟩

/-- Claim C5, amended: `extract` never fails and fills each field by the first
matching pattern of the ordered per-field list (explicit numeric dates before
relative words; explicit `HH:MM am/pm` before bare hours before day-part
words); the reason is the text after the first indicator IN THE FIXED LIST
ORDER for, regarding, about, because that occurs as a substring (also inside a
word) of the lowercased message, truncated to 200 characters; unmatched fields
stay empty.  The documented example extracts date "12/25/2024", time
"10:30 AM" and a reason containing "checkup". -/
theorem extract_details_amended :
    (∀ message : String,
      Backend.extract_appointment_details message =
        Backend.extract_details_spec_amended message) ∧
    Backend.extract_appointment_details "book a slot on 12/25/2024 at 10:30 AM for a checkup" =
      { date := some "12/25/2024", time := some "10:30 AM", reason := some "a checkup" } ∧
    "checkup".data <:+: "a checkup".data := by
  refine ⟨fun message => ?_, by decide, by decide⟩
  simp only [Backend.extract_appointment_details, Backend.extract_details_spec_amended,
    firstSome_eq_findSome?, Backend.reason_indicators, List.map_cons, List.map_nil,
    List.findSome?_cons, List.findSome?_nil]

/-! ### Loader chain (`maIn.py` `load_document`, `Backend/main.py` `load_document`)

A PDF blob is modelled by what each external parsing strategy would yield for
it: `none` models the library call raising, `some pages` the list of page
texts it returns.  `UnstructuredPDFLoader` and `PyPDFLoader` return their
record lists as-is; the PyMuPDF and PyPDF2 strategies build the record list
page by page, keeping only pages whose text has non-blank `strip()`. -/

/-- What the four PDF parsing strategies yield for one document blob. -/
structure LoaderBlob where
  unstructured : Option (List String)
  pypdf : Option (List String)
  pymupdf : Option (List String)
  pypdf2 : Option (List String)
deriving Repr, DecidableEq

/-- Python truthiness of `text.strip()` for one record. -/
def stripNonempty (t : String) : Bool := !(pyStrip t.data).isEmpty

namespace MaIn

/-- Method 4 of `load_document`: PyPDF2, page texts filtered to non-blank. -/
def load_method4 (b : LoaderBlob) : Option (List String) :=
  match b.pypdf2 with
  | some pages =>
    let documents := pages.filter stripNonempty
    if !documents.isEmpty then some documents else none
  | none => none

/-- Method 3 of `load_document`: PyMuPDF, page texts filtered to non-blank;
falls through to method 4. -/
def load_method3 (b : LoaderBlob) : Option (List String) :=
  match b.pymupdf with
  | some pages =>
    let documents := pages.filter stripNonempty
    if !documents.isEmpty then some documents else load_method4 b
  | none => load_method4 b

/-- Method 2 of `load_document`: PyPDFLoader; falls through to method 3. -/
def load_method2 (b : LoaderBlob) : Option (List String) :=
  match b.pypdf with
  | some documents => if !documents.isEmpty then some documents else load_method3 b
  | none => load_method3 b

/-- `load_document(file_path)` from `maIn.py`: four strategies tried in order,
each used when its call does not raise and its record list is truthy; `none`
models `raise Exception("All PDF processing methods failed ...")`. -/
def load_document (b : LoaderBlob) : Option (List String) :=
  match b.unstructured with
  | some documents => if !documents.isEmpty then some documents else load_method2 b
  | none => load_method2 b

end MaIn

namespace Backend

/-- Second strategy of the Backend `load_document`: PyPDFLoader. -/
def backend_try_pypdf (b : LoaderBlob) : Option (List String) :=
  match b.pypdf with
  | some documents => if !documents.isEmpty then some documents else none
  | none => none

/-- `load_document(file_path)` from `Backend/main.py`: UnstructuredPDFLoader
then PyPDFLoader, else `raise Exception("All PDF processing methods failed")`. -/
def load_document (b : LoaderBlob) : Option (List String) :=
  match b.unstructured with
  | some documents => if !documents.isEmpty then some documents else backend_try_pypdf b
  | none => backend_try_pypdf b

end Backend

namespace MaIn

/-- The effective record list each strategy of the chain contributes (for the
PyMuPDF and PyPDF2 strategies the per-page blank filter is part of the
strategy itself). -/
def effective_outputs (b : LoaderBlob) : List (Option (List String)) :=
  [b.unstructured, b.pypdf,
   b.pymupdf.map (List.filter stripNonempty),
   b.pypdf2.map (List.filter stripNonempty)]

/-- The loader chain as the specification words it: the output of the first
strategy that produces at least one NON-EMPTY record, and failure only when
every strategy fails or returns an empty result. -/
def load_document_spec (b : LoaderBlob) : Option (List String) :=
  (effective_outputs b).findSome? fun r =>
    match r with
    | some documents => if documents.any stripNonempty then some documents else none
    | none => none

/-- The loader chain as amended: the output of the first strategy that returns
a non-empty LIST of records (the records of the first two strategies may all
be blank), and failure only when every strategy fails or returns an empty
list. -/
def load_document_spec_amended (b : LoaderBlob) : Option (List String) :=
  (effective_outputs b).findSome? fun r =>
    match r with
    | some documents => if !documents.isEmpty then some documents else none
    | none => none

end MaIn

/-- Claim C3, counterexample: a first strategy returning one record with empty
text wins even though it produced no non-empty record, and a later strategy
with a non-empty record is never attempted.  The claimed behaviour would
instead return the second strategy's output. -/
theorem load_document_first_nonempty_cex :
    MaIn.load_document ⟨some [""], some ["hello"], none, none⟩ = some [""] ∧
    MaIn.load_document_spec ⟨some [""], some ["hello"], none, none⟩ = some ["hello"] ∧
    MaIn.load_document ⟨some [""], some ["hello"], none, none⟩ ≠
      MaIn.load_document_spec ⟨some [""], some ["hello"], none, none⟩ := by
  refine ⟨by decide, by decide, by decide⟩

/-- Claim C3, amended: for every document blob the chain tries its strategies
in the fixed priority order and returns the output of the first strategy that
produces a non-empty record LIST (for the third and fourth strategies the list
holds only records with non-blank text), without attempting later strategies;
it raises the unsupported-document error exactly when every strategy fails or
returns an empty list. -/
theorem load_document_chain_amended :
    (∀ b : LoaderBlob, MaIn.load_document b = MaIn.load_document_spec_amended b) ∧
    (∀ b : LoaderBlob, MaIn.load_document b = none ↔
      ∀ r ∈ MaIn.effective_outputs b, r = none ∨ r = some []) := by
  have hA : ∀ b : LoaderBlob, MaIn.load_document b = MaIn.load_document_spec_amended b := by
    rintro ⟨s1, s2, s3, s4⟩
    simp only [MaIn.load_document, MaIn.load_document_spec_amended,
      MaIn.effective_outputs, MaIn.load_method2, MaIn.load_method3, MaIn.load_method4,
      List.findSome?_cons, List.findSome?_nil]
    cases s1 <;> cases s2 <;> cases s3 <;> cases s4 <;>
      simp only [Option.map_some', Option.map_none'] <;>
      (repeat' split) <;> simp_all [List.isEmpty_iff]
  refine ⟨hA, fun b => ?_⟩
  rw [hA b, MaIn.load_document_spec_amended, List.findSome?_eq_none_iff]
  refine forall₂_congr fun r _ => ?_
  cases r with
  | none => simp
  | some documents => cases documents <;> simp

/-- Claim C6: the appointment-intent classifier returns true iff the message
contains, as a case-insensitive substring, at least one keyword of a fixed
keyword set; "I want to book an appointment" classifies as true and
"What are your visiting hours?" classifies as false. -/
theorem detect_appointment_intent_spec :
    (∀ message : String,
      Backend.detect_appointment_intent message = true ↔
        ∃ keyword ∈ Backend.appointment_keywords,
          keyword.data <:+: lowerChars message.data) ∧
    Backend.detect_appointment_intent "I want to book an appointment" = true ∧
    Backend.detect_appointment_intent "What are your visiting hours?" = false := by
  refine ⟨fun message => ?_, by decide, by decide⟩
  rw [Backend.detect_appointment_intent, List.any_eq_true]
  constructor
  · rintro ⟨kw, hkw, h⟩
    exact ⟨kw, hkw, (containsSub_iff _ _).mp h⟩
  · rintro ⟨kw, hkw, h⟩
    exact ⟨kw, hkw, (containsSub_iff _ _).mpr h⟩

/-! ### Embedding index and retrieval chain

Documents (page texts) are `String`s; the external embedding model maps a
chunk to a vector and may fail, modelled as `Doc → Option Vec`; the FAISS
vector store is the list of (vector, chunk) entries in insertion order; the
external text splitter (`CharacterTextSplitter(chunk_size=800, overlap=100)`)
is a parameter `split`. -/

/-- A normalized document record (its page text). -/
abbrev Doc := String

/-- An embedding vector. -/
abbrev Vec := List Int

/-- The FAISS store: one `(vector, chunk)` entry per embedded chunk. -/
abbrev VectorStore := List (Vec × Doc)

/-- Inner product of two embedding vectors (similarity of normalized vectors). -/
def dotInt (u v : Vec) : Int := (List.zipWith (fun a b => a * b) u v).sum

/-- Stable insertion by descending similarity to the query. -/
def insertBySim (q : Vec) (e : Vec × Doc) : VectorStore → VectorStore
  | [] => [e]
  | f :: t => if dotInt q e.1 ≥ dotInt q f.1 then e :: f :: t else f :: insertBySim q e t

/-- Entries sorted by descending similarity to the query. -/
def sortBySim (q : Vec) (vs : VectorStore) : VectorStore :=
  vs.foldr (insertBySim q) []

/-- Similarity search: the `k` most similar chunks to the query vector. -/
def similarity_retrieve (q : Vec) (k : Nat) (vs : VectorStore) : List Doc :=
  ((sortBySim q vs).take k).map (fun e => e.2)

/-- `setup_vectorstore(documents)` (same logic in both files): raise on an
empty document list, split into chunks, keep only the first 2000 chunks when
more were produced, embed every remaining chunk and build the store; an
embedding failure raises (`Except.error`), modelling `EmbeddingServiceError`.
The truncation leaves no trace in the returned store. -/
def setup_vectorstore (split : List Doc → List Doc) (embed : Doc → Option Vec)
    (documents : List Doc) : Except String VectorStore :=
  if documents.isEmpty then .error "No documents provided for vectorstore creation"
  else
    let doc_chunks := split documents
    let doc_chunks := if doc_chunks.length > 2000 then doc_chunks.take 2000 else doc_chunks
    match doc_chunks.mapM (fun c => (embed c).map (fun v => (v, c))) with
    | some entries => .ok entries
    | none => .error "EmbeddingServiceError"

/-- Number of chunks handed to the embedding model by `setup_vectorstore`
(0 when the function is not reached past its empty-input guard). -/
def chunks_embedded (split : List Doc → List Doc) (documents : List Doc) : Nat :=
  if documents.isEmpty then 0 else min (split documents).length 2000

/-- The retriever configuration taken from `vectorstore.as_retriever(...)`. -/
structure Retriever where
  search_type : String
  k : Nat
deriving Repr, DecidableEq

/-- The conversational retrieval chain as configured by `create_chain`:
its LLM temperature, its retriever, the store it retrieves from, and the
conversation-buffer memory (list of (question, answer) turns). -/
structure Chain where
  llm_temperature : Int
  retriever : Retriever
  vectorstore : VectorStore
  memory : List (String × String)
deriving Repr, DecidableEq

namespace Backend

/-- `create_chain(vectorstore)` from `Backend/main.py`: ChatGroq at temperature
0 and a similarity retriever with `k = 5`, with a fresh conversation memory. -/
def create_chain (vs : VectorStore) : Chain :=
  { llm_temperature := 0,
    retriever := { search_type := "similarity", k := 5 },
    vectorstore := vs,
    memory := [] }

end Backend

namespace MaIn

/-- `create_chain(vectorstore)` from `maIn.py`: `as_retriever()` is called
without arguments, so the library default similarity search with `k = 4`
applies (external library default). -/
def create_chain (vs : VectorStore) : Chain :=
  { llm_temperature := 0,
    retriever := { search_type := "similarity", k := 4 },
    vectorstore := vs,
    memory := [] }

end MaIn

/-- One call to the external language model: the temperature it is invoked at
and the full prompt text it receives. -/
structure LMCall where
  temperature : Int
  prompt : String
deriving Repr, DecidableEq

/-- The combine-documents prompt assembled by the library retrieval chain
(external collaborator `ConversationalRetrievalChain`): a function of the
retrieved context, the recorded history and the question only — the chain
receives no role information. -/
def combine_docs_prompt (context : List Doc) (memory : List (String × String))
    (question : String) : String :=
  "Use the following pieces of context to answer the question at the end.\n\n"
    ++ String.intercalate "\n\n" context
    ++ "\n\nChat History:\n"
    ++ String.intercalate "\n" (memory.map (fun p => p.1 ++ ": " ++ p.2))
    ++ "\n\nQuestion: " ++ question ++ "\nHelpful Answer:"

/-- `conversation_chain.invoke({'question': message})`: retrieve the top
`retriever.k` chunks by vector similarity to the embedded question and invoke
the model at the chain's temperature on the combine-documents prompt. -/
def chain_invoke (embed_query : String → Vec) (c : Chain) (question : String) : LMCall :=
  { temperature := c.llm_temperature,
    prompt := combine_docs_prompt
      (similarity_retrieve (embed_query question) c.retriever.k c.vectorstore)
      c.memory question }

namespace Backend

/-- The `"patient"` entry of `system_prompts` in the `chat` handler. -/
def patient_prompt : String :=
  "You are a helpful KG Hospital AI assistant helping patients. \n" ++
  "                \n" ++
  "                Provide clear, organized information about:\n" ++
  "                - Doctor appointments and specializations\n" ++
  "                - Hospital services and departments  \n" ++
  "                - Treatment information and medical procedures\n" ++
  "                - Emergency contacts and protocols\n" ++
  "                \n" ++
  "                When presenting data in tables, use proper markdown table format with clear headers and separators.\n" ++
  "                Use | and - characters to create clean, readable tables.\n" ++
  "                \n" ++
  "                If someone requests an appointment, guide them to provide:\n" ++
  "                1. Their full name\n" ++
  "                2. Phone number\n" ++
  "                3. Preferred date\n" ++
  "                4. Preferred time\n" ++
  "                5. Reason for visit\n" ++
  "                \n" ++
  "                Format your responses using natural sentences and organize lists clearly.\n" ++
  "                If information is unavailable, guide the user to contact the hospital front desk or helpline."

/-- The `"visitor"` entry of `system_prompts` in the `chat` handler. -/
def visitor_prompt : String :=
  "You are a helpful KG Hospital AI assistant helping visitors.\n" ++
  "                \n" ++
  "                Provide clear information about:\n" ++
  "                - Visiting hours and policies\n" ++
  "                - Hospital location and directions\n" ++
  "                - Parking information and facilities\n" ++
  "                - Hospital amenities and services\n" ++
  "                \n" ++
  "                When using tables, ensure they are properly formatted with headers and separators.\n" ++
  "                \n" ++
  "                Format your answers using natural sentences and organize information clearly."

/-- The `"staff"` entry of `system_prompts` in the `chat` handler. -/
def staff_prompt : String :=
  "You are a helpful KG Hospital AI assistant helping hospital staff.\n" ++
  "                \n" ++
  "                Provide organized information about:\n" ++
  "                - Patient inquiry responses\n" ++
  "                - Department information and contacts\n" ++
  "                - Emergency protocols and procedures\n" ++
  "                - Hospital policies and guidelines\n" ++
  "                \n" ++
  "                Use proper table formatting when presenting structured data.\n" ++
  "                \n" ++
  "                Format your answers using clear sentences and organize information logically."

/-- The `"admin"` entry of `system_prompts` in the `chat` handler. -/
def admin_prompt : String :=
  "You are a helpful KG Hospital AI assistant helping administrators.\n" ++
  "                \n" ++
  "                Provide comprehensive information about:\n" ++
  "                - Hospital operations and management\n" ++
  "                - System status and analytics\n" ++
  "                - Administrative procedures\n" ++
  "                - Staff coordination and policies\n" ++
  "                \n" ++
  "                Present data in well-formatted tables when appropriate.\n" ++
  "                \n" ++
  "                Format your output using clear paragraphs and organize information systematically."

/-- `system_prompts.get(user_role, system_prompts["patient"])`. -/
def system_prompts_get (user_role : String) : String :=
  if user_role = "patient" then patient_prompt
  else if user_role = "visitor" then visitor_prompt
  else if user_role = "staff" then staff_prompt
  else if user_role = "admin" then admin_prompt
  else patient_prompt

/-- The answer-generation step of the `chat` handler: with a conversation
chain present the chain is invoked on the question alone; otherwise a fresh
ChatGroq model at temperature 0 is invoked on the role instruction block
followed by the user question. -/
def generate_answer (embed_query : String → Vec) (chain : Option Chain)
    (message user_role : String) : LMCall :=
  match chain with
  | some c => chain_invoke embed_query c message
  | none =>
    { temperature := 0,
      prompt := system_prompts_get user_role ++ "\n\nUser Question: " ++ message
        ++ "\n\nResponse:" }

end Backend

/-! ### Document ingestion state machines

One Firebase file is its identity plus what the external collaborators would
do for it: whether `download_firebase_file` returns a temp path, and what each
PDF strategy yields (`LoaderBlob`). -/

/-- One blob listed by the Firebase storage collaborator. -/
structure FirebaseFile where
  name : String
  download_ok : Bool
  blob : LoaderBlob
deriving Repr, DecidableEq

namespace Backend

/-- The module-level mutable globals of `Backend/main.py`. -/
structure ServerState where
  vectorstore : Option VectorStore
  conversation_chain : Option Chain
  loaded_documents : List Doc
deriving Repr, DecidableEq

/-- Result of `reload_all_documents`: its normal `(success, message)` return,
or a propagated exception (only `setup_vectorstore` can raise past the
per-file handlers). -/
inductive ReloadOutcome
  | ok (success : Bool) (message : String)
  | exn (error : String)
deriving Repr, DecidableEq

/-- The download-and-parse loop of `reload_all_documents`: documents of files
that fail to download or to parse are skipped, the rest are concatenated in
file order; also counts the successful loads. -/
def load_all (files : List FirebaseFile) : List Doc × Nat :=
  files.foldl (fun acc f =>
    if f.download_ok then
      match load_document f.blob with
      | some documents => (acc.1 ++ documents, acc.2 + 1)
      | none => acc
    else acc) ([], 0)

/-- `reload_all_documents()` from `Backend/main.py`.  The three globals are
reassigned only after `setup_vectorstore` and `create_chain` succeed, so a
raised embedding error leaves the state argument untouched.  The third
component counts the chunks handed to the embedding model. -/
def reload_all_documents (split : List Doc → List Doc) (embed : Doc → Option Vec)
    (files : List FirebaseFile) (st : ServerState) : ServerState × ReloadOutcome × Nat :=
  if files.isEmpty then (st, .ok false "No documents found in Firebase", 0)
  else
    let all_documents := (load_all files).1
    let successful_loads := (load_all files).2
    if !all_documents.isEmpty then
      match setup_vectorstore split embed all_documents with
      | .error e => (st, .exn e, chunks_embedded split all_documents)
      | .ok vs =>
        ({ vectorstore := some vs,
           conversation_chain := some (create_chain vs),
           loaded_documents := all_documents },
         .ok true ("Successfully loaded " ++ toString successful_loads ++ " out of "
           ++ toString files.length ++ " documents"),
         chunks_embedded split all_documents)
    else (st, .ok false "No documents could be processed", 0)

end Backend

namespace MaIn

/-- The three session keys created together by `check_and_load_new_files`
(`loaded_firebase_files`, `all_documents`, `document_count`). -/
structure Tracking where
  loaded_firebase_files : List String
  all_documents : List Doc
  document_count : Nat
deriving Repr, DecidableEq

/-- The Streamlit session state: the tracking keys (absent before the first
call), and the `vectorstore` / `conversation_chain` keys. -/
structure SessionState where
  tracking : Option Tracking
  vectorstore : Option VectorStore
  conversation_chain : Option Chain
deriving Repr, DecidableEq

/-- Result of one `check_and_load_new_files` call: normal return or a
propagated `setup_vectorstore` exception.  Session mutations made before the
raise persist. -/
inductive CheckOutcome
  | ok
  | exn (error : String)
deriving Repr, DecidableEq

/-- Python `set.add` on the list-backed loaded set. -/
def addLoaded (l : List String) (n : String) : List String :=
  if n ∈ l then l else l ++ [n]

/-- The download-and-parse loop over the new files: on a successful parse the
record list is capped at its first 500 records, appended to the new documents,
and the file name is added to `loaded_firebase_files` immediately (before any
embedding happens). -/
def process_step (acc : List String × List Doc × Nat) (f : FirebaseFile) :
    List String × List Doc × Nat :=
  if f.download_ok then
    match load_document f.blob with
    | some documents =>
      let documents := if documents.length > 500 then documents.take 500 else documents
      (addLoaded acc.1 f.name, acc.2.1 ++ documents, acc.2.2 + 1)
    | none => acc
  else acc

/-- The whole loop. -/
def process_new_files (loaded0 : List String) (new_files : List FirebaseFile) :
    List String × List Doc × Nat :=
  new_files.foldl process_step (loaded0, [], 0)

/-- `check_and_load_new_files()` from `maIn.py`.  New files (names not yet in
`loaded_firebase_files`) are parsed and their names added to the loaded set
during the loop; only then is the vector store rebuilt from ALL accumulated
documents, so an embedding failure propagates after the loaded set and
document list were already extended.  The third component counts the chunks
handed to the embedding model. -/
def check_and_load_new_files (split : List Doc → List Doc) (embed : Doc → Option Vec)
    (files : List FirebaseFile) (st : SessionState) : SessionState × CheckOutcome × Nat :=
  if files.isEmpty then (st, .ok, 0)
  else
    let tr := st.tracking.getD { loaded_firebase_files := [], all_documents := [], document_count := 0 }
    let st := { st with tracking := some tr }
    let new_files := files.filter (fun f => !List.contains tr.loaded_firebase_files f.name)
    if new_files.isEmpty then
      if !tr.all_documents.isEmpty && st.vectorstore.isNone then
        match setup_vectorstore split embed tr.all_documents with
        | .error e => (st, .exn e, chunks_embedded split tr.all_documents)
        | .ok vs =>
          ({ st with vectorstore := some vs, conversation_chain := some (create_chain vs) },
           .ok, chunks_embedded split tr.all_documents)
      else (st, .ok, 0)
    else
      let processed := process_new_files tr.loaded_firebase_files new_files
      let tr := { tr with loaded_firebase_files := processed.1 }
      if !processed.2.1.isEmpty then
        let tr := { tr with all_documents := tr.all_documents ++ processed.2.1,
                            document_count := tr.document_count + processed.2.2 }
        match setup_vectorstore split embed tr.all_documents with
        | .error e => ({ st with tracking := some tr }, .exn e,
            chunks_embedded split tr.all_documents)
        | .ok vs =>
          ({ tracking := some tr, vectorstore := some vs,
             conversation_chain := some (create_chain vs) },
           .ok, chunks_embedded split tr.all_documents)
      else ({ st with tracking := some tr }, .ok, 0)

/-- The loaded set recorded in a session state (empty before initialisation). -/
def loadedSet (st : SessionState) : List String :=
  (st.tracking.map (fun tr => tr.loaded_firebase_files)).getD []

end MaIn

/-! ### Helper lemmas on embedding and the loaded set -/

theorem mapM_embed_spec (embed : Doc → Option Vec) :
    ∀ (l : List Doc) (entries : VectorStore),
      l.mapM (fun c => (embed c).map (fun v => (v, c))) = some entries →
      entries.map (fun e => e.2) = l ∧ entries.length = l.length := by
  intro l
  induction l with
  | nil =>
    intro entries h
    simp only [List.mapM_nil, pure, Option.some.injEq] at h
    simp [← h]
  | cons c t ih =>
    intro entries h
    rw [List.mapM_cons] at h
    simp only [bind, Option.bind_eq_some, Option.map_eq_some', pure,
      Option.some.injEq] at h
    obtain ⟨e, ⟨v, _, rfl⟩, es, hes, rfl⟩ := h
    obtain ⟨h1, h2⟩ := ih es hes
    simp [h1, h2]

theorem mem_addLoaded {n : String} {l : List String} (m : String) (h : n ∈ l) :
    n ∈ MaIn.addLoaded l m := by
  rw [MaIn.addLoaded]
  split
  · exact h
  · exact List.mem_append_left _ h

theorem mem_loaded_foldl {n : String} :
    ∀ (fs : List FirebaseFile) (acc : List String × List Doc × Nat),
      n ∈ acc.1 → n ∈ (fs.foldl MaIn.process_step acc).1 := by
  intro fs
  induction fs with
  | nil => intro acc h; exact h
  | cons f t ih =>
    intro acc h
    refine ih _ ?_
    rw [MaIn.process_step]
    split
    · split
      · exact mem_addLoaded _ h
      · exact h
    · exact h


/-! ### Claim C9: the 2000-chunk and 500-record caps -/

/-- An embedding oracle that always succeeds. -/
def embedConst : Doc → Option Vec := fun _ => some [0]

/-- A corpus whose chunking yields exactly 2000 chunks (under split = id). -/
def docsAtCap : List Doc := (List.range 2000).map (fun n => toString n)

/-- The same corpus with one extra chunk: its chunking exceeds the cap. -/
def docsOverCap : List Doc := docsAtCap ++ ["extra"]

/-- Two corpora sharing their first 2000 chunks, one at the cap and one over
it, give identical results: truncation leaves no trace in the return value. -/
theorem setup_vectorstore_cap_indistinguishable (embed : Doc → Option Vec)
    (docs : List Doc) (extra : Doc) (h : docs.length = 2000) :
    setup_vectorstore id embed (docs ++ [extra]) = setup_vectorstore id embed docs := by
  have hne : docs ≠ [] := by
    intro hnil
    rw [hnil] at h
    exact absurd h (by norm_num)
  have hA : docs.isEmpty = false := List.isEmpty_eq_false.mpr hne
  have hB : (docs ++ [extra]).isEmpty = false :=
    List.isEmpty_eq_false.mpr (by simp)
  rw [setup_vectorstore, setup_vectorstore, hA, hB]
  simp only [Bool.false_eq_true, if_false, id_eq]
  rw [if_pos (by rw [List.length_append, h]; norm_num),
    if_neg (by rw [h]; norm_num)]
  have htake : (docs ++ [extra]).take 2000 = docs := by
    conv_lhs => rw [← h]
    exact List.take_left _ _
  rw [htake]

/-- Claim C9, counterexample: the truncated result is NOT marked — a corpus at
the cap and a corpus over the cap (sharing the first 2000 chunks) produce
identical `setup_vectorstore` results, so no caller can detect from the result
that truncation occurred. -/
theorem truncation_not_detectable_cex :
    setup_vectorstore id embedConst docsOverCap = setup_vectorstore id embedConst docsAtCap ∧
    (id docsOverCap).length > 2000 ∧ (id docsAtCap).length = 2000 := by
  have hA : docsAtCap.length = 2000 := by
    rw [docsAtCap, List.length_map, List.length_range]
  refine ⟨setup_vectorstore_cap_indistinguishable embedConst docsAtCap "extra" hA, ?_, ?_⟩
  · rw [id_eq, docsOverCap, List.length_append, hA]
    norm_num
  · rw [id_eq, hA]

/-- Claim C9, amended: chunking past the cap is truncated deterministically to
the first 2000 chunks in generation order (the store built on success holds
exactly those chunks, in order), and a parsed document of more than 500
records contributes exactly its first 500 records; but the result is NOT
marked as truncated — only a console or UI message is emitted, and the caller
cannot detect truncation from the returned value (see the counterexample). -/
theorem truncation_amended :
    (∀ (split : List Doc → List Doc) (embed : Doc → Option Vec) (docs : List Doc)
        (entries : VectorStore),
      (split docs).length > 2000 →
      setup_vectorstore split embed docs = .ok entries →
      entries.map (fun e => e.2) = (split docs).take 2000 ∧ entries.length = 2000) ∧
    (∀ (loaded : List String) (f : FirebaseFile) (documents : List Doc),
      f.download_ok = true →
      MaIn.load_document f.blob = some documents →
      documents.length > 500 →
      MaIn.process_new_files loaded [f] =
        (MaIn.addLoaded loaded f.name, documents.take 500, 1)) := by
  constructor
  · intro split embed docs entries hlen hok
    rw [setup_vectorstore] at hok
    by_cases hempty : docs.isEmpty
    · rw [hempty] at hok
      simp at hok
    · rw [Bool.not_eq_true] at hempty
      rw [hempty] at hok
      simp only [Bool.false_eq_true, if_false, hlen, if_pos] at hok
      cases hmap : ((split docs).take 2000).mapM (fun c => (embed c).map (fun v => (v, c))) with
      | none => rw [hmap] at hok; exact absurd hok (by simp)
      | some es =>
        rw [hmap] at hok
        simp only [Except.ok.injEq] at hok
        subst hok
        obtain ⟨h1, h2⟩ := mapM_embed_spec embed _ _ hmap
        refine ⟨h1, ?_⟩
        rw [h2, List.length_take]
        omega
  · intro loaded f documents hdl hload hlen
    rw [MaIn.process_new_files]
    simp only [List.foldl_cons, List.foldl_nil, MaIn.process_step, hdl, if_pos, hload]
    simp [hlen]

/-- The maIn loader on a blob whose first strategy returns a non-empty list. -/
theorem load_document_unstructured (r : List String) (hne : r ≠ []) :
    MaIn.load_document ⟨some r, none, none, none⟩ = some r := by
  simp [MaIn.load_document, List.isEmpty_eq_false.mpr hne]

/-- Witness for `truncation_amended`, at a file parsing to 501 one-character
records. -/
theorem truncation_amended_witness :
    MaIn.process_new_files [] [⟨"big.pdf", true, ⟨some (List.replicate 501 "x"), none, none, none⟩⟩] =
      (MaIn.addLoaded [] "big.pdf", (List.replicate 501 "x").take 500, 1) :=
  truncation_amended.2 [] ⟨"big.pdf", true, ⟨some (List.replicate 501 "x"), none, none, none⟩⟩
    (List.replicate 501 "x") rfl
    (load_document_unstructured _ (by
      intro h
      have hlen := congrArg List.length h
      rw [List.length_replicate] at hlen
      exact absurd hlen (by norm_num)))
    (by rw [List.length_replicate]; norm_num)

/-! ### Claims C1 and C2: merge atomicity and idempotent reload -/

/-- An embedding oracle that always fails (the embedding service is down). -/
def embedFail : Doc → Option Vec := fun _ => none

/-- A file whose blob parses to the single record "docA". -/
def fileA : FirebaseFile := ⟨"a.pdf", true, ⟨some ["docA"], none, none, none⟩⟩

/-- A second file whose blob parses to the single record "docB". -/
def fileB : FirebaseFile := ⟨"b.pdf", true, ⟨some ["docB"], none, none, none⟩⟩

/-- A session in which `a.pdf` is already indexed (one entry, one loaded name). -/
def sessionA : MaIn.SessionState :=
  { tracking := some { loaded_firebase_files := ["a.pdf"],
                       all_documents := ["docA"],
                       document_count := 1 },
    vectorstore := some [([1], "docA")],
    conversation_chain := some (MaIn.create_chain [([1], "docA")]) }

/-- Claim C1, counterexample: in `check_and_load_new_files`, when the
embedding call fails while merging the new file `b.pdf`, the pre-existing
index is indeed untouched but the LoadedSet is NOT: `b.pdf` was added to
`loaded_firebase_files` before the failing embedding call, so the LoadedSet
after the failed call differs from its value before the call. -/
theorem merge_atomicity_cex :
    (MaIn.check_and_load_new_files id embedFail [fileA, fileB] sessionA).2.1 =
      MaIn.CheckOutcome.exn "EmbeddingServiceError" ∧
    (MaIn.check_and_load_new_files id embedFail [fileA, fileB] sessionA).1.vectorstore =
      sessionA.vectorstore ∧
    MaIn.loadedSet (MaIn.check_and_load_new_files id embedFail [fileA, fileB] sessionA).1 =
      ["a.pdf", "b.pdf"] ∧
    MaIn.loadedSet (MaIn.check_and_load_new_files id embedFail [fileA, fileB] sessionA).1 ≠
      MaIn.loadedSet sessionA := by
  refine ⟨by decide, by decide, by decide, by decide⟩


/-- Claim C1, amended: if the embedding step fails, the pre-existing index is
left unmodified on both paths (in `reload_all_documents` the whole global
state is untouched; in `check_and_load_new_files` the `vectorstore` key keeps
its old value, so the entry count is preserved); LoadedSet is preserved by
`reload_all_documents`, but `check_and_load_new_files` has already added the
names of the successfully parsed new files to LoadedSet before the failing
embedding call — no pre-existing name is removed (the old LoadedSet remains a
subset), yet the pre-call membership is not restored. -/
theorem merge_atomicity_amended :
    (∀ (split : List Doc → List Doc) (embed : Doc → Option Vec)
        (files : List FirebaseFile) (st : Backend.ServerState) (e : String),
      (Backend.reload_all_documents split embed files st).2.1 = .exn e →
      (Backend.reload_all_documents split embed files st).1 = st) ∧
    (∀ (split : List Doc → List Doc) (embed : Doc → Option Vec)
        (files : List FirebaseFile) (st : MaIn.SessionState) (e : String),
      (MaIn.check_and_load_new_files split embed files st).2.1 = .exn e →
      (MaIn.check_and_load_new_files split embed files st).1.vectorstore = st.vectorstore ∧
      ∀ n ∈ MaIn.loadedSet st,
        n ∈ MaIn.loadedSet (MaIn.check_and_load_new_files split embed files st).1) := by
  constructor
  · intro split embed files st e
    simp only [Backend.reload_all_documents]
    split
    · intro h; simp at h
    · split
      · split
        · intro _; rfl
        · intro h; simp at h
      · intro h; simp at h
  · intro split embed files st e
    simp only [MaIn.check_and_load_new_files]
    split
    · intro h; simp at h
    · split
      · split
        · split
          · intro _
            refine ⟨rfl, ?_⟩
            intro n hn
            rw [MaIn.loadedSet] at hn ⊢
            cases htr : st.tracking with
            | none => rw [htr] at hn; simp at hn
            | some tr => rw [htr] at hn; simpa using hn
          · intro h; simp at h
        · intro h; simp at h
      · split
        · split
          · intro _
            refine ⟨rfl, ?_⟩
            intro n hn
            rw [MaIn.loadedSet] at hn ⊢
            cases htr : st.tracking with
            | none => rw [htr] at hn; simp at hn
            | some tr =>
              rw [htr] at hn
              simp only [htr, Option.getD_some, Option.map_some', Option.getD_some]
              simp only [Option.map_some', Option.getD_some] at hn
              exact mem_loaded_foldl _ _ hn
          · intro h; simp at h
        · intro h; simp at h

/-- Witness for `merge_atomicity_amended`: a failing embedding call leaves the
Backend globals untouched, and leaves the session vectorstore untouched. -/
theorem merge_atomicity_amended_witness :
    (Backend.reload_all_documents id embedFail [fileA] ⟨none, none, []⟩).1 = ⟨none, none, []⟩ ∧
    (MaIn.check_and_load_new_files id embedFail [fileA, fileB] sessionA).1.vectorstore =
      sessionA.vectorstore :=
  ⟨merge_atomicity_amended.1 id embedFail [fileA] ⟨none, none, []⟩ "EmbeddingServiceError"
      (by decide),
   (merge_atomicity_amended.2 id embedFail [fileA, fileB] sessionA "EmbeddingServiceError"
      (by decide)).1⟩

/-- An embedding server state with nothing loaded. -/
def emptyServer : Backend.ServerState := ⟨none, none, []⟩

/-- Claim C2, counterexample: `reload_all_documents` is a full rebuild — after
a first successful reload of the unchanged corpus `[fileA]` (whose one
document is then represented in the index), a second call hands 1 chunk to the
embedding model again instead of 0: the already-indexed chunk IS re-embedded. -/
theorem idempotent_reload_cex :
    (Backend.reload_all_documents id embedConst [fileA] emptyServer).2.1 =
      Backend.ReloadOutcome.ok true "Successfully loaded 1 out of 1 documents" ∧
    (Backend.reload_all_documents id embedConst [fileA] emptyServer).1.loaded_documents =
      ["docA"] ∧
    (Backend.reload_all_documents id embedConst [fileA]
        (Backend.reload_all_documents id embedConst [fileA] emptyServer).1).2.2 = 1 := by
  refine ⟨by decide, by decide, by decide⟩

/-- Claim C2, amended: in `check_and_load_new_files` a second call over an
unchanged corpus (all file names already in LoadedSet, vector store present)
is a no-op — the session state is returned unchanged and 0 chunks are handed
to the embedding model; in `reload_all_documents` a second call after a
successful reload of an unchanged corpus yields the identical state, outcome
and embedding count as the first (so LoadedSet and the index entry count are
unchanged after the second call), but it re-embeds every chunk of the corpus
instead of skipping the chunks already represented (see the counterexample). -/
theorem idempotent_reload_amended :
    (∀ (split : List Doc → List Doc) (embed : Doc → Option Vec)
        (files : List FirebaseFile) (tr : MaIn.Tracking) (vs : VectorStore)
        (cc : Option Chain),
      (∀ f ∈ files, f.name ∈ tr.loaded_firebase_files) →
      MaIn.check_and_load_new_files split embed files ⟨some tr, some vs, cc⟩ =
        (⟨some tr, some vs, cc⟩, .ok, 0)) ∧
    (∀ (split : List Doc → List Doc) (embed : Doc → Option Vec)
        (files : List FirebaseFile) (st : Backend.ServerState) (m : String),
      (Backend.reload_all_documents split embed files st).2.1 = .ok true m →
      Backend.reload_all_documents split embed files
          ((Backend.reload_all_documents split embed files st).1) =
        Backend.reload_all_documents split embed files st) := by
  constructor
  · intro split embed files tr vs cc hall
    have hfilter : files.filter (fun f => !List.contains tr.loaded_firebase_files f.name) = [] := by
      rw [List.filter_eq_nil_iff]
      intro f hf
      simp only [Bool.not_eq_true', Bool.not_eq_true]
      rw [Bool.not_eq_false]
      exact List.elem_iff.mpr (hall f hf)
    rw [MaIn.check_and_load_new_files]
    by_cases h1 : files.isEmpty
    · rw [if_pos h1]
    · rw [if_neg h1]
      simp only [Option.getD_some, hfilter, List.isEmpty_nil, if_true, Option.isNone_some,
        Bool.and_false, Bool.false_eq_true, if_false]
  · intro split embed files st m
    simp only [Backend.reload_all_documents]
    split
    · intro h; simp at h
    · split
      · split
        · intro h; simp at h
        · intro _; rfl
      · intro h; simp at h

/-- Witness for `idempotent_reload_amended`: the no-op second call on the
session already holding `a.pdf`, and the repeated Backend reload. -/
theorem idempotent_reload_amended_witness :
    MaIn.check_and_load_new_files id embedConst [fileA] sessionA = (sessionA, .ok, 0) ∧
    Backend.reload_all_documents id embedConst [fileA]
        ((Backend.reload_all_documents id embedConst [fileA] emptyServer).1) =
      Backend.reload_all_documents id embedConst [fileA] emptyServer :=
  ⟨by
    exact idempotent_reload_amended.1 id embedConst [fileA]
      ⟨["a.pdf"], ["docA"], 1⟩ [([1], "docA")] (some (MaIn.create_chain [([1], "docA")]))
      (by decide),
   idempotent_reload_amended.2 id embedConst [fileA] emptyServer
      "Successfully loaded 1 out of 1 documents" (by decide)⟩

/-! ### Claim C4: role prompting and retrieval in the chat answer path -/

/-- A one-entry vector store for concrete checks. -/
def chainStore : VectorStore := [([1], "chunkA")]

/-- A query embedder for concrete checks. -/
def embedOne : String → Vec := fun _ => [1]

/-- Claim C4, counterexample: when an index (conversation chain) exists, the
prompt handed to the language model does NOT contain the role-specific
instruction block — the chain is invoked on the question alone, so the staff
and admin roles produce the identical language-model call. -/
theorem chat_role_prompt_cex :
    Backend.generate_answer embedOne (some (Backend.create_chain chainStore))
        "When are visiting hours?" "staff" =
      Backend.generate_answer embedOne (some (Backend.create_chain chainStore))
        "When are visiting hours?" "admin" ∧
    ¬ (Backend.system_prompts_get "staff").data <:+:
        (Backend.generate_answer embedOne (some (Backend.create_chain chainStore))
          "When are visiting hours?" "staff").prompt.data := by
  exact ⟨rfl, by set_option maxRecDepth 4000 in decide⟩

/-- Claim C4, amended: when an index exists the answer is produced by the
retrieval chain built by `create_chain` — top-5 chunks by vector similarity,
language model at temperature 0 on a prompt combining the retrieved chunk
text and the conversation history with the message, with NO role-specific
instruction block (the role argument is ignored on this path); the
role-specific blocks (variants patient, visitor, staff, admin, defaulting to
patient) are used only when no index exists, where the model is invoked at
temperature 0 on the role block followed by the message. -/
theorem chat_role_prompt_amended :
    (∀ (embed_query : String → Vec) (vs : VectorStore) (question role : String),
      Backend.generate_answer embed_query (some (Backend.create_chain vs)) question role =
        { temperature := 0,
          prompt := combine_docs_prompt (similarity_retrieve (embed_query question) 5 vs)
            [] question }) ∧
    (∀ (embed_query : String → Vec) (c : Chain) (question role₁ role₂ : String),
      Backend.generate_answer embed_query (some c) question role₁ =
        Backend.generate_answer embed_query (some c) question role₂) ∧
    (∀ (embed_query : String → Vec) (question role : String),
      Backend.generate_answer embed_query none question role =
        { temperature := 0,
          prompt := Backend.system_prompts_get role ++ "\n\nUser Question: " ++ question
            ++ "\n\nResponse:" }) ∧
    (∀ role : String,
      role ≠ "patient" → role ≠ "visitor" → role ≠ "staff" → role ≠ "admin" →
      Backend.system_prompts_get role = Backend.patient_prompt) := by
  refine ⟨fun _ _ _ _ => rfl, fun _ _ _ _ _ => rfl, fun _ _ _ => rfl, ?_⟩
  intro role h1 h2 h3 h4
  simp [Backend.system_prompts_get, h1, h2, h3, h4]

/-- Witness for `chat_role_prompt_amended`: an unknown role falls back to the
patient block. -/
theorem chat_role_prompt_amended_witness :
    Backend.system_prompts_get "guest" = Backend.patient_prompt :=
  chat_role_prompt_amended.2.2.2 "guest" (by decide) (by decide) (by decide) (by decide)

/-! ### Response formatter (`Backend/main.py`, `format_response_text`)

`re.sub` is realised by `pySub`: a left-to-right scan that, at each position,
either applies the pattern-specific matcher (returning the replacement and the
rest after the match) and continues after it, or emits one character and
advances — exactly the non-overlapping leftmost-match semantics of `re.sub`.
The fuel is the input length; every matcher consumes at least one character,
so the fuel never runs out on the inputs it is applied to. -/

/-- One `re.sub` pass: `mf s` returns `(replacement, rest)` when the pattern
matches at the start of `s`. -/
def scanSub (mf : List Char → Option (List Char × List Char)) :
    Nat → List Char → List Char
  | 0, s => s
  | _ + 1, [] => []
  | fuel + 1, c :: cs =>
    match mf (c :: cs) with
    | some (rep, rest) => rep ++ scanSub mf fuel rest
    | none => c :: scanSub mf fuel cs

/-- `re.sub(pattern, repl, s)` for one of the embedded patterns. -/
def pySub (mf : List Char → Option (List Char × List Char)) (s : List Char) : List Char :=
  scanSub mf s.length s

/-- Python `.rstrip('.')`. -/
def rstripDots (s : List Char) : List Char :=
  (s.reverse.dropWhile (fun c => c = '.')).reverse

/-- One step of `re.sub(r'\s+', ' ', content)`: a maximal whitespace run
becomes one space. -/
def matchWsRun (s : List Char) : Option (List Char × List Char) :=
  let ws := s.takeWhile isPySpace
  if ws.isEmpty then none else some ([' '], s.drop ws.length)

/-- `re.sub(r'\s+', ' ', content)`. -/
def collapseWs (s : List Char) : List Char := pySub matchWsRun s

/-- One step of the first normalisation sub of `format_regular_text`:
digits, a dot, a whitespace run containing a newline, then a letter — joined
as `digits. letter` (the matched letter is consumed). -/
def matchSub1 (s : List Char) : Option (List Char × List Char) :=
  let ds := s.takeWhile Char.isDigit
  if ds.isEmpty then none else
  match s.drop ds.length with
  | '.' :: s1 =>
    let ws := s1.takeWhile isPySpace
    if ws.contains '\n' then
      match s1.drop ws.length with
      | c :: rest => if c.isAlpha then some (ds ++ ['.', ' ', c], rest) else none
      | [] => none
    else none
  | _ => none

/-- One step of the second normalisation sub: a letter or `)` plus whitespace,
then `digits.`, with a lookahead for optional whitespace and a letter — a
newline is inserted before the digits (the lookahead is not consumed). -/
def matchSub2 (s : List Char) : Option (List Char × List Char) :=
  match s with
  | c :: s1 =>
    if c.isAlpha || c = ')' then
      let ws := s1.takeWhile isPySpace
      if ws.isEmpty then none else
      let s2 := s1.drop ws.length
      let ds := s2.takeWhile Char.isDigit
      if ds.isEmpty then none else
      match s2.drop ds.length with
      | '.' :: s3 =>
        match s3.dropWhile isPySpace with
        | a :: _ => if a.isAlpha then some (c :: ws ++ '\n' :: ds ++ ['.'], s3) else none
        | [] => none
      | _ => none
    else none
  | [] => none

/-- One step of the third normalisation sub: newline, whitespace, digits,
whitespace containing a newline, then `digits.` — rewritten to newline
followed by both digit groups juxtaposed and the dot. -/
def matchSub3 (s : List Char) : Option (List Char × List Char) :=
  match s with
  | '\n' :: s1 =>
    let w1 := s1.takeWhile isPySpace
    let s2 := s1.drop w1.length
    let d1 := s2.takeWhile Char.isDigit
    if d1.isEmpty then none else
    let s3 := s2.drop d1.length
    let w2 := s3.takeWhile isPySpace
    if w2.contains '\n' then
      let s4 := s3.drop w2.length
      let d2 := s4.takeWhile Char.isDigit
      if d2.isEmpty then none else
      match s4.drop d2.length with
      | '.' :: rest => some ('\n' :: (d1 ++ d2 ++ ['.']), rest)
      | _ => none
    else none
  | _ => none

/-- One step of `re.sub(r'\n{3,}', '\n\n', t)`. -/
def matchNl3 (s : List Char) : Option (List Char × List Char) :=
  let ns := s.takeWhile (fun c => c = '\n')
  if decide (3 ≤ ns.length) then some (['\n', '\n'], s.drop ns.length) else none

/-- `re.sub(r'^\n+', '', t)` (anchored, so only leading newlines). -/
def stripLeadingNewlines (s : List Char) : List Char :=
  s.dropWhile (fun c => c = '\n')

/-- `re.sub(r'\n+$', '', t)`: removes the maximal trailing newline run. -/
def stripTrailingNewlines (s : List Char) : List Char :=
  (s.reverse.dropWhile (fun c => c = '\n')).reverse

/-- Join lines back with newlines, as `'\n'.join(lines)`. -/
def joinLines (ls : List (List Char)) : List Char := List.intercalate ['\n'] ls

namespace Backend

/-- The regex class `[A-Za-z\s]` of the department header pattern. -/
def isDeptClassChar (c : Char) : Bool := c.isAlpha || isPySpace c

/-- Case-insensitive occurrence of "department" at offset `k`. -/
def isDeptWordAt (s : List Char) (k : Nat) : Bool :=
  lowerChars ((s.drop k).take 10) = "department".data

/-- Greedy search for the largest `k ≤ run` with "department" at offset `k`
(the `+` quantifier backtracks from its maximal run). -/
def greedyDeptK : Nat → List Char → Option Nat
  | 0, _ => none
  | k + 1, s => if isDeptWordAt s (k + 1) then some (k + 1) else greedyDeptK k s

/-- Try the pattern `([A-Za-z\s]+department)` (ignorecase) at this position:
returns the matched group and the rest after the match. -/
def deptAt (s : List Char) : Option (List Char × List Char) :=
  (greedyDeptK (s.takeWhile isDeptClassChar).length s).map
    (fun k => (s.take (k + 10), s.drop (k + 10)))

/-- `re.search(r'([A-Za-z\s]+department)', line, re.IGNORECASE)`: leftmost
position wins. -/
def deptSearchFrom : List Char → Option (List Char × List Char)
  | [] => none
  | c :: t =>
    match deptAt (c :: t) with
    | some r => some r
    | none => deptSearchFrom t

/-- Python `str.title()` over the ASCII range: a letter after a non-letter is
uppercased, other letters lowercased. -/
def titleCaseGo : Bool → List Char → List Char
  | _, [] => []
  | prevAlpha, c :: t =>
    if c.isAlpha then
      (if prevAlpha then toLowerChar c else toUpperChar c) :: titleCaseGo true t
    else c :: titleCaseGo false t

/-- Python `str.title()`. -/
def titleCase (s : List Char) : List Char := titleCaseGo false s

/-- `re.sub(r'^:?\s*is:?\s*', '', remaining)`: anchored, so applied at most
once at the start, and only when a literal `is` is present; otherwise the text
is unchanged. -/
def stripIsColon (r : List Char) : List Char :=
  let r1 := match r with | ':' :: t => t | _ => r
  let r2 := r1.dropWhile isPySpace
  match r2 with
  | 'i' :: 's' :: t =>
    let t1 := match t with | ':' :: u => u | _ => t
    t1.dropWhile isPySpace
  | _ => r

/-- The phrases whose presence routes a line through the keep-as-is branch. -/
def key_phrases : List String :=
  ["mentioned:", "list of", "includes", "following", "columns:"]

/-- `re.match(r'^(\d+\.)\s*(.+)', line)`: the number group (digits and dot)
and the content group. -/
def matchNumberLine (line : List Char) : Option (List Char × List Char) :=
  let ds := line.takeWhile Char.isDigit
  if ds.isEmpty then none else
  match line.drop ds.length with
  | '.' :: s1 =>
    let rem := s1.dropWhile isPySpace
    if rem.isEmpty then none else some (ds ++ ['.'], rem)
  | _ => none

/-- The accumulator of the `format_regular_text` line loop (`current_number`
is assigned in the source but never read, so it is not tracked). -/
structure RegAcc where
  lines : List (List Char)
  pending_number : Option Nat

/-- Append the line unchanged (the key-phrase branch and the default branch of
the source both do exactly this). -/
def phraseAppend (acc : RegAcc) (line : List Char) : RegAcc :=
  if key_phrases.any (fun p => containsSub p.data (lowerChars line)) then
    { acc with lines := acc.lines ++ [line] }
  else { acc with lines := acc.lines ++ [line] }

/-- The `if not re.match(r'^\d+', line)` tail of the loop body: department
lines become a bold header, a body line and a blank line; everything else is
appended unchanged.  A line that still starts with a digit is dropped. -/
def formatTail (acc : RegAcc) (line : List Char) : RegAcc :=
  if !(match line with | c :: _ => c.isDigit | [] => false) then
    if containsSub "department".data (lowerChars line) then
      match deptSearchFrom line with
      | some (grp, remaining0) =>
        let dept_name := titleCase grp
        let acc := if !acc.lines.isEmpty && acc.lines.getLast? ≠ some [] then
            { acc with lines := acc.lines ++ [[]] } else acc
        let acc := { acc with lines := acc.lines ++ ["**".data ++ dept_name ++ "**".data] }
        let remaining1 := pyStrip remaining0
        let remaining := if ":".data.isPrefixOf remaining1 || "is:".data.isPrefixOf remaining1
          then stripIsColon remaining1 else remaining1
        let acc := if !remaining.isEmpty then { acc with lines := acc.lines ++ [remaining] }
          else acc
        if acc.lines.getLast? ≠ some [] then { acc with lines := acc.lines ++ [[]] } else acc
      | none => phraseAppend acc line
    else phraseAppend acc line
  else acc

/-- One iteration of the `for line in raw_lines` loop of `format_regular_text`. -/
def formatLineStep (acc : RegAcc) (line0 : List Char) : RegAcc :=
  let line := pyStrip line0
  if line.isEmpty then
    if !acc.lines.isEmpty && acc.lines.getLast? ≠ some [] then
      { acc with lines := acc.lines ++ [[]] }
    else acc
  else if line.all Char.isDigit then
    { acc with pending_number := some (digitsToNat line) }
  else
    match matchNumberLine line with
    | some (number, content0) =>
      let content := rstripDots (collapseWs (pyStrip content0))
      { lines := acc.lines ++ [number ++ ' ' :: content], pending_number := none }
    | none =>
      match acc.pending_number with
      | some p =>
        if !line.isEmpty && !(toString p).data.isPrefixOf line then
          let content := collapseWs (rstripDots (pyStrip line))
          { lines := acc.lines ++ [(toString p).data ++ '.' :: ' ' :: content],
            pending_number := none }
        else formatTail acc line
      | none => formatTail acc line

/-- `format_regular_text(text)` from `Backend/main.py`. -/
def format_regular_text (text : String) : String :=
  if text.data.isEmpty then "" else
    let t := pySub matchSub1 text.data
    let t := pySub matchSub2 t
    let t := pySub matchSub3 t
    let raw_lines := List.splitOn '\n' t
    let acc := raw_lines.foldl formatLineStep { lines := [], pending_number := none }
    let formatted_text := joinLines acc.lines
    let formatted_text := pySub matchNl3 formatted_text
    let formatted_text := stripLeadingNewlines formatted_text
    let formatted_text := stripTrailingNewlines formatted_text
    String.mk formatted_text

/-- A line that starts a table: a pipe together with `---`, or at least two
pipes together with a dash, equals sign or colon. -/
def isTableStartLine (line : List Char) : Bool :=
  (line.contains '|' && containsSub "---".data line) ||
  (decide (2 ≤ line.count '|') &&
    (line.contains '-' || line.contains '=' || line.contains ':'))

/-- The state of the table-detection loop of `format_response_text`
(`table_start_index` is stored in the source but what is consumed downstream
is only the content, in order). -/
structure TableScan where
  current_section : List (List Char)
  in_table : Bool
  table_sections : List (List Char)
  non_table_sections : List (List Char)

/-- One iteration of the table-detection loop (each line is stripped first,
as in the source). -/
def tableScanStep (acc : TableScan) (line0 : List Char) : TableScan :=
  let line := pyStrip line0
  if isTableStartLine line then
    let acc := if !acc.in_table && !acc.current_section.isEmpty then
        { acc with non_table_sections := acc.non_table_sections ++ [joinLines acc.current_section],
                   current_section := [] }
      else acc
    { acc with in_table := true, current_section := acc.current_section ++ [line] }
  else if acc.in_table && line.contains '|' then
    { acc with current_section := acc.current_section ++ [line] }
  else if acc.in_table && line.isEmpty then
    { acc with current_section := acc.current_section ++ [line] }
  else if acc.in_table && !(line.contains '|' && decide (2 ≤ line.count '|')) then
    let acc := if !acc.current_section.isEmpty then
        { acc with table_sections := acc.table_sections ++ [joinLines acc.current_section],
                   current_section := [] }
      else acc
    { acc with in_table := false, current_section := acc.current_section ++ [line] }
  else
    { acc with current_section := acc.current_section ++ [line] }

/-- The after-loop flush: a remaining section goes to the table or non-table
list according to the final `in_table` flag. -/
def tableScanFinish (acc : TableScan) : List (List Char) × List (List Char) :=
  if !acc.current_section.isEmpty then
    if acc.in_table then
      (acc.non_table_sections, acc.table_sections ++ [joinLines acc.current_section])
    else (acc.non_table_sections ++ [joinLines acc.current_section], acc.table_sections)
  else (acc.non_table_sections, acc.table_sections)

/-- `format_response_text(text)` from `Backend/main.py`: empty input yields
the fixed guidance string; otherwise lines are segmented into table runs and
other text, non-blank non-table sections are reformatted, table sections are
wrapped verbatim in TABLE_START and TABLE_END markers, and the sections are
joined by blank lines (non-table sections first, then the tables); with no
table present the whole text goes through `format_regular_text`. -/
def format_response_text (text : String) : String :=
  if text.data.isEmpty then
    "I\x27m happy to assist. You can also contact KG Hospital for detailed guidance."
  else
    let original_text := pyStrip text.data
    let lines := List.splitOn '\n' original_text
    let acc := lines.foldl tableScanStep
      { current_section := [], in_table := false, table_sections := [], non_table_sections := [] }
    let sections := tableScanFinish acc
    if !sections.2.isEmpty then
      let formatted_sections :=
        (sections.1.filter (fun s => !(pyStrip s).isEmpty)).map
          (fun s => (format_regular_text (String.mk s)).data)
        ++ sections.2.map (fun t => "TABLE_START\n".data ++ t ++ "\nTABLE_END".data)
      String.mk (List.intercalate "\n\n".data formatted_sections)
    else format_regular_text (String.mk original_text)

end Backend

/-! ### Claims C7 and C8: table passthrough and formatter totality -/

/-- The table block of the documented example. -/
def tableExample : String := "| A | B |\n|---|---|\n| 1 | 2 |"

/-- Claim C7, counterexample: the example block does NOT appear byte-identical
in the formatter output.  The header row `| A | B |` contains no dash, equals
sign or colon, so it is not recognised as part of the table: the table run is
entered only at the separator row, and the header is emitted as a separate
text section before the TABLE_START marker. -/
theorem table_passthrough_cex :
    Backend.format_response_text tableExample =
      "| A | B |\n\nTABLE_START\n|---|---|\n| 1 | 2 |\nTABLE_END" ∧
    ¬ tableExample.data <:+: (Backend.format_response_text tableExample).data := by
  refine ⟨by decide, by decide⟩

/-- On a run of recognised table lines the scan loop only accumulates. -/
theorem tableScan_all_table :
    ∀ (ls : List (List Char)),
      (∀ l ∈ ls, pyStrip l = l ∧ Backend.isTableStartLine l = true) →
      ∀ (cs ts ns : List (List Char)),
        ls.foldl Backend.tableScanStep ⟨cs, true, ts, ns⟩ = ⟨cs ++ ls, true, ts, ns⟩ := by
  intro ls
  induction ls with
  | nil => intro _ cs ts ns; simp
  | cons l t ih =>
    intro h cs ts ns
    obtain ⟨hstrip, htab⟩ := h l (List.mem_cons_self _ _)
    have hstep : Backend.tableScanStep ⟨cs, true, ts, ns⟩ l = ⟨cs ++ [l], true, ts, ns⟩ := by
      simp [Backend.tableScanStep, hstrip, htab]
    rw [List.foldl_cons, hstep,
      ih (fun l₂ hl => h l₂ (List.mem_cons_of_mem _ hl)) (cs ++ [l]) ts ns]
    simp

/-- Claim C7, amended: a run whose every line is itself recognised as a
table-start line passes through byte-identical, wrapped in TABLE_START and
TABLE_END markers; but a leading header row containing no dash, equals sign or
colon is split off into the preceding text section, so for the documented
example only the sub-block from the separator row on appears byte-identical,
with the header row emitted separately before the table block. -/
theorem table_passthrough_amended :
    (∀ s : String,
      List.splitOn '\n' (pyStrip s.data) ≠ [] →
      (∀ l ∈ List.splitOn '\n' (pyStrip s.data),
        pyStrip l = l ∧ Backend.isTableStartLine l = true) →
      Backend.format_response_text s =
        String.mk ("TABLE_START\n".data ++ joinLines (List.splitOn '\n' (pyStrip s.data))
          ++ "\nTABLE_END".data)) ∧
    "|---|---|\n| 1 | 2 |".data <:+:
      (Backend.format_response_text tableExample).data := by
  constructor
  · intro s hne hall
    have hsne : s.data.isEmpty = false := by
      rw [List.isEmpty_eq_false]
      intro hnil
      have h0 : List.splitOn '\n' (pyStrip s.data) = [[]] := by rw [hnil]; rfl
      have := (hall [] (by rw [h0]; exact List.mem_singleton.mpr rfl)).2
      exact absurd this (by decide)
    rw [Backend.format_response_text, hsne]
    simp only [Bool.false_eq_true, if_false]
    obtain ⟨l₁, rest, hls⟩ : ∃ l₁ rest, List.splitOn '\n' (pyStrip s.data) = l₁ :: rest := by
      cases hc : List.splitOn '\n' (pyStrip s.data) with
      | nil => exact absurd hc hne
      | cons a b => exact ⟨a, b, rfl⟩
    rw [hls]
    rw [hls] at hall
    obtain ⟨hstrip1, htab1⟩ := hall l₁ (List.mem_cons_self _ _)
    have hfirst : Backend.tableScanStep ⟨[], false, [], []⟩ l₁ = ⟨[l₁], true, [], []⟩ := by
      simp [Backend.tableScanStep, hstrip1, htab1]
    rw [List.foldl_cons, hfirst,
      tableScan_all_table rest (fun l₂ hl => hall l₂ (List.mem_cons_of_mem _ hl)) [l₁] [] []]
    rw [Backend.tableScanFinish]
    simp only [List.singleton_append, List.isEmpty_cons, Bool.not_false, if_true,
      List.nil_append, List.filter_nil, List.map_nil, List.map_cons, List.map_nil,
      List.intercalate]
    simp [joinLines]
  · decide

/-- Witness for `table_passthrough_amended`, at a two-line all-table input. -/
theorem table_passthrough_amended_witness :
    Backend.format_response_text "|---|---|\n| 1-1 | 2-2 |" =
      String.mk ("TABLE_START\n".data
        ++ joinLines (List.splitOn '\n' (pyStrip "|---|---|\n| 1-1 | 2-2 |".data))
        ++ "\nTABLE_END".data) :=
  table_passthrough_amended.1 "|---|---|\n| 1-1 | 2-2 |" (by decide) (by decide)

/-- Claim C8: the response formatter is total — it is a plain function on
strings, defined without any failure case — and on the empty input it returns
the fixed, non-empty fallback guidance string (and the inner
`format_regular_text` returns the empty string on empty input, as its own
guard states). -/
theorem formatter_total_empty_fallback :
    Backend.format_response_text "" =
      "I\x27m happy to assist. You can also contact KG Hospital for detailed guidance." ∧
    Backend.format_response_text "" ≠ "" ∧
    Backend.format_regular_text "" = "" := by
  refine ⟨rfl, by decide, rfl⟩

/-! ### The chat endpoint (`Backend/main.py`, `chat`) with in-memory storage

The Firestore-unavailable fallback paths of the storage helpers are the ones
modelled (`FIREBASE_INITIALIZED` false): records go to the in-memory lists.
Fresh UUIDs and timestamps come from outside and are passed as parameters. -/

/-- Python truthiness of an optional string (`None` and `""` are falsy). -/
def optTruthy : Option String → Bool
  | none => false
  | some s => s ≠ ""

/-- Python `x or default` for an optional string. -/
def optOr (x : Option String) (default : String) : String :=
  match x with
  | none => default
  | some s => if s = "" then default else s

/-- Python `x or default` for a string. -/
def strOr (x : String) (default : String) : String :=
  if x = "" then default else x

namespace Backend

/-- The request model `ChatMessage`. -/
structure ChatMessageIn where
  message : String
  user_role : String
  user_id : Option String
  user_name : Option String
  phone_number : Option String
deriving Repr, DecidableEq

/-- The response model `ChatResponse` (its `timestamp` is the wall clock,
passed in from outside). -/
structure ChatResponseOut where
  response : String
  timestamp : String
  is_appointment_request : Bool
  appointment_id : Option String
deriving Repr, DecidableEq

/-- One record of the `appointment_requests` collection. -/
structure AppointmentRecord where
  appointment_id : String
  user_name : String
  phone_number : String
  preferred_date : String
  preferred_time : String
  reason : String
  user_role : String
  original_message : String
  status : String
  admin_notes : String
deriving Repr, DecidableEq

/-- One record of the `chat_history` collection. -/
structure ChatRecord where
  id : String
  user_id : String
  user_role : String
  user_name : String
  message : String
  response : String
  is_appointment_request : Bool
deriving Repr, DecidableEq

/-- One record of the `admin_notifications` collection (its `type` field is
called `ntype` here). -/
structure NotificationRecord where
  title : String
  message : String
  ntype : String
deriving Repr, DecidableEq

/-- The `in_memory_storage` fallback dictionary. -/
structure InMemoryStorage where
  chat_history : List ChatRecord
  appointment_requests : List AppointmentRecord
  admin_notifications : List NotificationRecord
deriving Repr, DecidableEq

/-- `save_admin_notification` on the in-memory fallback path. -/
def save_admin_notification (st : InMemoryStorage) (title message ntype : String) :
    InMemoryStorage :=
  { st with admin_notifications := st.admin_notifications ++ [⟨title, message, ntype⟩] }

/-- `save_appointment_request` on the in-memory fallback path: appends the
pending appointment record, creates the admin notification, and returns the
fresh appointment id. -/
def save_appointment_request (st : InMemoryStorage) (newId : String)
    (user_name phone_number preferred_date preferred_time reason user_role
      original_message : String) : InMemoryStorage × String :=
  let appointment_data : AppointmentRecord :=
    { appointment_id := newId, user_name := user_name, phone_number := phone_number,
      preferred_date := preferred_date, preferred_time := preferred_time,
      reason := reason, user_role := user_role, original_message := original_message,
      status := "pending", admin_notes := "" }
  let st := { st with appointment_requests := st.appointment_requests ++ [appointment_data] }
  let st := save_admin_notification st "📅 New Appointment Request"
    ("Patient: " ++ user_name ++ "\nPhone: " ++ phone_number ++ "\nDate: " ++ preferred_date
      ++ "\nTime: " ++ preferred_time)
    "appointment_request"
  (st, newId)

/-- `save_chat_history` on the in-memory fallback path. -/
def save_chat_history (st : InMemoryStorage) (chatId user_id user_role user_name
    message response : String) (is_appointment : Bool) : InMemoryStorage :=
  { st with chat_history := st.chat_history ++
      [{ id := chatId, user_id := strOr user_id "anonymous", user_role := user_role,
         user_name := strOr user_name "Anonymous User", message := message,
         response := response, is_appointment_request := is_appointment }] }

/-- The fallback answer substituted for blank or uncertain model output. -/
def uncertainFallback : String :=
  "I\x27m happy to help with your query. "
    ++ "While I don\x27t have specific information on that at the moment, "
    ++ "you can contact KG Hospital\x27s support or visit the front desk anytime for assistance."

/-- The `chat` endpoint handler on the in-memory storage path.  External
inputs: the query embedder and the language model (`llm_complete` turns the
prompt call into the model text), the current conversation chain (the global
set by a successful reload), three fresh UUIDs and the wall-clock timestamp. -/
def chat (embed_query : String → Vec) (llm_complete : LMCall → String)
    (chain : Option Chain) (uuid_appt uuid_user uuid_chat now : String)
    (st : InMemoryStorage) (message : ChatMessageIn) :
    InMemoryStorage × ChatResponseOut :=
  let is_appointment := detect_appointment_intent message.message
  let answer := llm_complete (generate_answer embed_query chain message.message message.user_role)
  let step :=
    if is_appointment then
      if optTruthy message.phone_number && optTruthy message.user_name then
        let details := extract_appointment_details message.message
        let saved := save_appointment_request st uuid_appt
          (message.user_name.getD "") (message.phone_number.getD "")
          (optOr details.date "Not specified") (optOr details.time "Not specified")
          (optOr details.reason (String.mk (message.message.data.take 200)))
          message.user_role message.message
        let answer := if saved.2 ≠ "" then
            answer ++ "\n\n✅ Your appointment request has been submitted successfully! Our admin team will review it and contact you shortly at the provided phone number."
          else answer
        (saved.1, some saved.2, answer)
      else
        (st, (none : Option String),
          answer ++ "\n\n📋 To book an appointment, please provide your full name and phone number so our team can contact you to confirm the appointment details.")
    else (st, (none : Option String), answer)
  let st := save_chat_history step.1 uuid_chat (optOr message.user_id uuid_user)
    message.user_role (optOr message.user_name "Anonymous") message.message step.2.2
    is_appointment
  let answer := if (pyStrip step.2.2.data).isEmpty
      || containsSub "I don\x27t know".data step.2.2.data
      || containsSub "I\x27m not sure".data step.2.2.data then
      uncertainFallback
    else step.2.2
  (st,
   { response := format_response_text answer, timestamp := now,
     is_appointment_request := is_appointment && step.2.1.isSome,
     appointment_id := step.2.1 })

end Backend

/-- Claim C10: when appointment intent is detected but the user name or phone
number is missing (absent or empty), no appointment record is created and the
response carries `is_appointment_request = false` and a null `appointment_id`;
and `is_appointment_request` is true only when intent was detected and an
appointment record was actually created (the stored list grew by one). -/
theorem chat_requires_contact_details :
    (∀ (embed_query : String → Vec) (llm_complete : LMCall → String)
        (chain : Option Chain) (u1 u2 u3 now : String)
        (st : Backend.InMemoryStorage) (msg : Backend.ChatMessageIn),
      Backend.detect_appointment_intent msg.message = true →
      (optTruthy msg.user_name = false ∨ optTruthy msg.phone_number = false) →
      (Backend.chat embed_query llm_complete chain u1 u2 u3 now st msg).1.appointment_requests =
          st.appointment_requests ∧
      (Backend.chat embed_query llm_complete chain u1 u2 u3 now st msg).2.is_appointment_request =
          false ∧
      (Backend.chat embed_query llm_complete chain u1 u2 u3 now st msg).2.appointment_id =
          none) ∧
    (∀ (embed_query : String → Vec) (llm_complete : LMCall → String)
        (chain : Option Chain) (u1 u2 u3 now : String)
        (st : Backend.InMemoryStorage) (msg : Backend.ChatMessageIn),
      (Backend.chat embed_query llm_complete chain u1 u2 u3 now st msg).2.is_appointment_request =
          true →
      Backend.detect_appointment_intent msg.message = true ∧
      (Backend.chat embed_query llm_complete chain u1 u2 u3 now st msg).1.appointment_requests.length =
        st.appointment_requests.length + 1) := by
  constructor
  · intro embed_query llm_complete chain u1 u2 u3 now st msg hdet hmiss
    have hand : (optTruthy msg.phone_number && optTruthy msg.user_name) = false := by
      rcases hmiss with h | h <;> simp [h]
    simp only [Backend.chat, hdet, if_true, hand, Bool.false_eq_true, if_false]
    refine ⟨?_, ?_, ?_⟩ <;> simp [Backend.save_chat_history]
  · intro embed_query llm_complete chain u1 u2 u3 now st msg h
    by_cases hdet : Backend.detect_appointment_intent msg.message = true
    · refine ⟨hdet, ?_⟩
      by_cases hcontact : (optTruthy msg.phone_number && optTruthy msg.user_name) = true
      · simp only [Backend.chat, hdet, if_true, hcontact]
        simp [Backend.save_chat_history, Backend.save_appointment_request,
          Backend.save_admin_notification]
      · rw [Bool.not_eq_true] at hcontact
        simp only [Backend.chat, hdet, if_true, hcontact, Bool.false_eq_true, if_false] at h
        simp at h
    · rw [Bool.not_eq_true] at hdet
      simp only [Backend.chat, hdet, Bool.false_eq_true, if_false] at h
      simp at h

/-- Witness for `chat_requires_contact_details`: an appointment request with
no contact details creates no record and returns a false flag and null id. -/
theorem chat_requires_contact_details_witness :
    (Backend.chat (fun _ => []) (fun _ => "Hello") none "u1" "u2" "u3" "t0" ⟨[], [], []⟩
        ⟨"I want to book an appointment", "patient", none, none, none⟩).1.appointment_requests =
      (⟨[], [], []⟩ : Backend.InMemoryStorage).appointment_requests ∧
    (Backend.chat (fun _ => []) (fun _ => "Hello") none "u1" "u2" "u3" "t0" ⟨[], [], []⟩
        ⟨"I want to book an appointment", "patient", none, none, none⟩).2.is_appointment_request =
      false ∧
    (Backend.chat (fun _ => []) (fun _ => "Hello") none "u1" "u2" "u3" "t0" ⟨[], [], []⟩
        ⟨"I want to book an appointment", "patient", none, none, none⟩).2.appointment_id =
      none :=
  chat_requires_contact_details.1 (fun _ => []) (fun _ => "Hello") none "u1" "u2" "u3" "t0"
    ⟨[], [], []⟩ ⟨"I want to book an appointment", "patient", none, none, none⟩
    (by decide) (Or.inl rfl)
